import Mathlib

/-!
Verification of the workflow-trigger polling core of the domo-mcp-server
repository (src/domo_mcp/server.py, src/domo_mcp/proxy.py, src/domo_mcp/domo.py).

The embedding models the remote platform as oracles supplied to each
operation:
  * the decoded activation response (`Option ActResp`: Python `None` when the
    executor returned no result, otherwise the relevant fields of the JSON
    object — presence of the `id` and `status` keys with their string values);
  * the sequence of status-query outcomes (`Nat → Option String`: the k-th
    status request's decoded text, `none` when the executor returned `None`);
  * the transactions response (`Option (List Msg)`).
Python exceptions are modelled with `Except PyErr`; a function that Python
lets an exception escape from is `Except`-valued, and a `try/except` wrapper
is a total function over the body's `Except` result.  The HTTP calls an
operation issues are recorded in a `List Call` trace.
-/

namespace DomoMcp

/-- Decoded JSON value (payloads carried by the remote responses). -/
inductive JVal where
  | null
  | bool (b : Bool)
  | num (n : Int)
  | str (s : String)
  | arr (xs : List JVal)
  | obj (kvs : List (String × JVal))

/-- Python truthiness of a decoded JSON value (`if not data:` in the source):
`None`, `False`, `0`, `""`, `[]` and the empty object are falsy. -/
def JVal.falsy : JVal → Bool
  | .null => true
  | .bool b => !b
  | .num n => n == 0
  | .str s => s.isEmpty
  | .arr xs => xs.isEmpty
  | .obj kvs => kvs.isEmpty

/-- One entry of an instance's transaction/message log: a JSON object whose
relevant keys are `id` (`none` when the key is absent) and `value`
(`none` when the key is absent). -/
structure Msg where
  id : Option String
  value : Option JVal

/-- The decoded activation response: a JSON object whose relevant keys are
`id` and `status` (`none` models an absent key). -/
structure ActResp where
  id : Option String
  status : Option String

/-- Python exception kinds that arise in the modelled code paths. -/
inductive PyErr where
  | typeError
  | keyError
  | nameError
  | attrError
  | unboundLocalError
deriving DecidableEq

/-- Transport-level outcome of one HTTP request, as seen by
`DomoClient.make_request`: either a response object was obtained
(with its 2xx-ness, body text, and JSON-decoded body when the body parses),
or the request itself raised before any response was bound
(connection error / invalid URL). -/
inductive Transport where
  | resp (ok2xx : Bool) (text : String) (json : Option JVal)
  | connError

/-- src/domo_mcp/server.py `DomoClient.make_request`.
The `try` body raises `requests` exceptions on connection failure, on
`raise_for_status` (non-2xx) and on JSON-decode failure; the
`except RequestException` handler logs
`f"HTTP request failed: {e}\nReturned: {response.text}"` and returns `None`.
When the request raised before `response` was assigned, evaluating
`response.text` in that handler raises `UnboundLocalError`, which no clause
of the same `try` catches, so it escapes to the caller. -/
def make_request (t : Transport) (nojson : Bool) : Except PyErr (Option JVal) :=
  match t with
  | .connError => .error .unboundLocalError
  | .resp ok2xx text json =>
    if ok2xx then
      if nojson then .ok (some (.str text))
      else
        match json with
        | some j => .ok (some j)
        | none => .ok none
    else .ok none

/-- src/domo_mcp/domo.py `DomoClient.make_request`.
Same structure, but the handler logs only `f"HTTP request failed: {e}"`,
so every transport failure is converted to `None`. -/
def make_request_domo (t : Transport) : Option JVal :=
  match t with
  | .connError => none
  | .resp ok2xx _ json => if ok2xx then json else none

/-- The poll loop shared by `tix_domo` (budget 300) and
`DomoClient.query_dataset` (budget 120):

    while status=='IN_PROGRESS' and timeout_seconds>0:
        status = await make_request(f".../instances/{instance_id}/status", "GET", nojson=True)
        timeout_seconds -= 1
        sleep(1)

`resp k` is the decoded outcome of the k-th status query (`none` when the
executor returned `None`), `st` the current status, `budget` the remaining
timeout, `k` the number of queries issued so far.  Returns the final status
and the total number of queries issued. -/
def pollLoop (resp : Nat → Option String) (st : Option String) (budget : Nat)
    (k : Nat) : Option String × Nat :=
  match budget with
  | 0 => (st, k)
  | b + 1 =>
    if st = some "IN_PROGRESS" then pollLoop resp (resp k) b (k + 1)
    else (st, k)

/-- One HTTP call issued by a workflow operation, with the identifier it
is addressed to. -/
inductive Call where
  | activate (triggerId : String)
  | statusQ (instanceId : String)
  | txns (instanceId : String)
deriving DecidableEq

/-- The `try` body of src/domo_mcp/server.py `tix_domo` (lines 358–380),
given the decoded activation response, the status-query oracle and the
decoded transactions response.  Faithfully in source order:
`trigger['id']` raises `TypeError` when the activation outcome is Python
`None` and `KeyError` when the `id` key is absent; likewise
`trigger['status']`; then the 300-tick poll loop runs on `instance_id`;
then the transaction log is fetched for the same `instance_id` (a `None`
outcome there is returned as-is, no exception).  The second component is
the trace of HTTP calls issued: every status query and the transactions
fetch address the `instance_id` string interpolated from the activation
response. -/
def tix_domo_body (trigId : String) (act : Option ActResp)
    (resp : Nat → Option String) (txns : Option (List Msg)) :
    Except PyErr (Option String × Option (List Msg)) × List Call :=
  match act with
  | none => (.error .typeError, [.activate trigId])
  | some t =>
    match t.id with
    | none => (.error .keyError, [.activate trigId])
    | some iid =>
      match t.status with
      | none => (.error .keyError, [.activate trigId])
      | some st0 =>
        let p := pollLoop resp (some st0) 300 0
        (.ok (p.1, txns),
         .activate trigId :: (List.replicate p.2 (.statusQ iid) ++ [.txns iid]))

/-- What `tix_domo` hands back to its caller: on success the dict
`{"status": status, "messages": messages}`, and after any caught exception
the bare Python boolean `True` (the function's final `return True`). -/
inductive TixResult where
  | ok (status : Option String) (messages : Option (List Msg))
  | pyTrue

/-- src/domo_mcp/server.py `tix_domo` (lines 351–384): the `try` body wrapped
by `except Exception: ...; return True`, so every exception raised in the
body is caught, logged and replaced by the boolean `True`. -/
def tix_domo (trigId : String) (act : Option ActResp)
    (resp : Nat → Option String) (txns : Option (List Msg)) :
    TixResult × List Call :=
  match tix_domo_body trigId act resp txns with
  | (.ok (st, msgs), tr) => (.ok st msgs, tr)
  | (.error _, tr) => (.pyTrue, tr)

/-- What the `try` body of `DomoClient.query_dataset` returns when no
exception escapes: either the second-decode of the result value, or the
string `"Unable to execute query on the dataset."` when the value is
falsy. -/
inductive QueryBodyOut where
  | data (v : JVal)
  | unable

/-- Final outcome of `DomoClient.query_dataset`: decoded data, the
`"Unable to execute query on the dataset."` string, or the caught-exception
string `f"Error executing query on dataset: {e}"` (tagged with the
exception that was caught). -/
inductive QueryOut where
  | data (v : JVal)
  | unable
  | errorString (e : PyErr)

/-- Lines 129–149 of src/domo_mcp/server.py `DomoClient.query_dataset`:
given the decoded transaction-fetch outcome, run the exact-match selector
`next((item for item in messages if item.get("id") == "result"), None)`
(iterating a `None` outcome raises `TypeError`), dereference
`result_obj['value']` (`TypeError` on the `None` default, `KeyError` when
the `value` key is absent), apply the Python-truthiness check `if not
data`, and finally `json.loads(data)`.  `loads` models `json.loads` (an
external library call; it raises on non-string or unparsable input). -/
def query_extract (loads : JVal → Except PyErr JVal) (txns : Option (List Msg)) :
    Except PyErr QueryBodyOut :=
  match txns with
  | none => .error .typeError
  | some msgs =>
    match msgs.find? (fun m => m.id == some "result") with
    | none => .error .typeError
    | some m =>
      match m.value with
      | none => .error .keyError
      | some v =>
        if v.falsy then .ok .unable
        else
          match loads v with
          | .error e => .error e
          | .ok parsed => .ok (.data parsed)

/-- The `try` body of src/domo_mcp/server.py `DomoClient.query_dataset`
(lines 107–149).  In source order: `trigger['id']` / `trigger['status']`
key lookups on the activation response, the 120-tick poll loop on the
instance id, the transactions fetch for the same instance id, then the
extraction of `query_extract`.  The second component is the trace of HTTP
calls issued; every status query and the transactions fetch address the
`instance_id` taken from the activation response, and the extraction
issues no further call. -/
def query_dataset_body (loads : JVal → Except PyErr JVal) (act : Option ActResp)
    (resp : Nat → Option String) (txns : Option (List Msg)) :
    Except PyErr QueryBodyOut × List Call :=
  let trig := "57e5928e-3488-4723-9075-2fc4dd1dd092"
  match act with
  | none => (.error .typeError, [.activate trig])
  | some t =>
    match t.id with
    | none => (.error .keyError, [.activate trig])
    | some iid =>
      match t.status with
      | none => (.error .keyError, [.activate trig])
      | some st0 =>
        let p := pollLoop resp (some st0) 120 0
        (query_extract loads txns,
         .activate trig :: (List.replicate p.2 (.statusQ iid) ++ [Call.txns iid]))

/-- src/domo_mcp/server.py `DomoClient.query_dataset`: the body wrapped by
`except Exception as e: return f"Error executing query on dataset: {str(e)}"`,
so every exception is caught and replaced by an error string. -/
def query_dataset (loads : JVal → Except PyErr JVal) (act : Option ActResp)
    (resp : Nat → Option String) (txns : Option (List Msg)) :
    QueryOut × List Call :=
  match query_dataset_body loads act resp txns with
  | (.ok (.data v), tr) => (.data v, tr)
  | (.ok .unable, tr) => (.unable, tr)
  | (.error e, tr) => (.errorString e, tr)

/-- The remote responses consumed by one attempt of the retry loop: each
iteration of `tix_workflow`'s `while` calls `tix_domo` afresh, so each
attempt has its own activation response, status-query oracle and
transactions response. -/
structure Round where
  act : Option ActResp
  resp : Nat → Option String
  txns : Option (List Msg)

/-- Result of one retry-loop attempt, as seen by the caller of `tix_domo`. -/
def runTix (trigId : String) (r : Round) : TixResult :=
  (tix_domo trigId r.act r.resp r.txns).1

/-- The last successful `tix_domo` response held by the facade's `response`
variable: the pair (`status` value, `messages` value) of the returned dict. -/
abbrev LastResp := Option String × Option (List Msg)

/-- The `while` loop of src/domo_mcp/proxy.py `tix_workflow` (lines 16–21):

    while status !='COMPLETED' and attempts> 0:
        response = await tix_domo(data, TriggerId=triggerId)
        status = response.get('status','uninitialized')
        attempts -= 1

`st` is the current `status` value (Python string or `None`), `last` the
current `response` (absent before the first iteration), `budget` the
remaining attempts, `k` the number of `tix_domo` calls (hence workflow
activations) performed so far.  When `tix_domo` returns the boolean `True`,
`response.get` raises `AttributeError`, which nothing in `tix_workflow`
catches.  Returns the loop outcome together with the total activation
count. -/
def wfLoop (trigId : String) (rounds : Nat → Round) (st : Option String)
    (last : Option LastResp) (budget : Nat) (k : Nat) :
    Except PyErr (Option String × Option LastResp) × Nat :=
  match budget with
  | 0 => (.ok (st, last), k)
  | b + 1 =>
    if st = some "COMPLETED" then (.ok (st, last), k)
    else
      match runTix trigId (rounds k) with
      | .pyTrue => (.error .attrError, k + 1)
      | .ok fs msgs => wfLoop trigId rounds fs (some (fs, msgs)) b (k + 1)

/-- Python `s.startswith(pre)`, modelled on the character sequences of the
two strings. -/
def startswith (s pre : String) : Bool :=
  pre.data.isPrefixOf s.data

/-- The prefix-match-all selector of src/domo_mcp/proxy.py line 24:
`[item for item in response['messages'] if item.get("id", "").startswith("result__")]`. -/
def filterResult (msgs : List Msg) : List Msg :=
  msgs.filter (fun m => startswith (m.id.getD "") "result__")

/-- Payload of the `JSONResponse` built by `tix_workflow`: on the
`status == 'COMPLETED'` branch the filtered message list, otherwise the
entire last `tix_domo` response dict (its `status` and `messages` fields). -/
inductive WfData where
  | msgs (l : List Msg)
  | resp (status : Option String) (messages : Option (List Msg))

/-- The JSON body returned by `tix_workflow`: a `status` field (`none`
models JSON `null`) and a `data` field. -/
structure WfResp where
  status : Option String
  data : WfData

/-- src/domo_mcp/proxy.py `tix_workflow` (lines 10–30), with the attempt
budget as a parameter (the source hard-codes `attempts = 5`).  After the
loop: on `status == 'COMPLETED'` it returns
`{"status": "completed", "data": filtered}` (the literal lowercase string),
where `filtered` iterates `response['messages']` (iterating a `None` value
raises `TypeError`); otherwise it returns
`{"status": response.get('status','unknown'), "data": response}` — `data`
is the whole response dict.  If the loop never ran, `response` is unbound
and `response.get` raises `NameError`.  No exception is caught here, so
errors escape to the route handler. -/
def tix_workflow (trigId : String) (rounds : Nat → Round) (attempts : Nat) :
    Except PyErr WfResp :=
  match wfLoop trigId rounds (some "uninitialized") none attempts 0 with
  | (.error e, _) => .error e
  | (.ok (st, last), _) =>
    if st = some "COMPLETED" then
      match last with
      | some (_, some msgs) => .ok ⟨some "completed", .msgs (filterResult msgs)⟩
      | some (_, none) => .error .typeError
      | none => .error .nameError
    else
      match last with
      | some (s2, msgs) => .ok ⟨s2, .resp s2 msgs⟩
      | none => .error .nameError

/-! ## Poll-loop lemmas -/

theorem pollLoop_count_le (resp : Nat → Option String) :
    ∀ (b k : Nat) (st : Option String), (pollLoop resp st b k).2 ≤ k + b := by
  intro b
  induction b with
  | zero => intro k st; simp [pollLoop]
  | succ b ih =>
    intro k st
    simp only [pollLoop]
    split
    · have := ih (k + 1) (resp k)
      omega
    · exact Nat.le_add_right k (b + 1)

theorem pollLoop_exit (resp : Nat → Option String) (st : Option String)
    (b k : Nat) (h : st ≠ some "IN_PROGRESS") : pollLoop resp st b k = (st, k) := by
  cases b with
  | zero => rfl
  | succ b => simp only [pollLoop, if_neg h]

theorem pollLoop_first_exit (resp : Nat → Option String) :
    ∀ (j b k : Nat), j < b →
      (∀ i, i < j → resp (k + i) = some "IN_PROGRESS") →
      resp (k + j) ≠ some "IN_PROGRESS" →
      pollLoop resp (some "IN_PROGRESS") b k = (resp (k + j), k + j + 1) := by
  intro j
  induction j with
  | zero =>
    intro b k hb _hall hj
    obtain ⟨b', rfl⟩ : ∃ b', b = b' + 1 := ⟨b - 1, by omega⟩
    simp only [pollLoop, if_pos rfl]
    rw [pollLoop_exit resp (resp k) b' (k + 1) (by simpa using hj)]
    simp
  | succ j ih =>
    intro b k hb hall hj
    obtain ⟨b', rfl⟩ : ∃ b', b = b' + 1 := ⟨b - 1, by omega⟩
    have h0 : resp k = some "IN_PROGRESS" := by simpa using hall 0 (by omega)
    simp only [pollLoop, if_pos rfl]
    rw [h0]
    have hrec := ih b' (k + 1) (by omega)
      (fun i hi => by
        have h2 := hall (i + 1) (by omega)
        have e : k + (i + 1) = k + 1 + i := by omega
        rw [e] at h2
        exact h2)
      (by
        have e : k + 1 + j = k + (j + 1) := by omega
        rw [e]
        exact hj)
    rw [hrec]
    have e : k + 1 + j = k + (j + 1) := by omega
    rw [e]
    simp

/-- C1: for every timeout budget `T ≥ 0` and every sequence of status
responses, the poll loop issues at most `T` status queries, and as soon as a
queried status differs from `IN_PROGRESS` it issues no further query and
exits with that status as the final one (the first non-`IN_PROGRESS`
response, observed as query `j`, ends the loop after exactly `j + 1`
queries with that response as the final status). -/
theorem pollLoop_budget_and_first_exit (resp : Nat → Option String)
    (st : Option String) (T : Nat) :
    (pollLoop resp st T 0).2 ≤ T ∧
    ∀ j, j < T → st = some "IN_PROGRESS" →
      (∀ i, i < j → resp i = some "IN_PROGRESS") →
      resp j ≠ some "IN_PROGRESS" →
      pollLoop resp st T 0 = (resp j, j + 1) := by
  constructor
  · simpa using pollLoop_count_le resp T 0 st
  · intro j hj hst hall hne
    subst hst
    have h := pollLoop_first_exit resp j T 0 hj (by simpa using hall)
      (by simpa using hne)
    simpa using h

/-- Status oracle for the C1 witness: `IN_PROGRESS` twice, then
`COMPLETED`. -/
def wRespC1 : Nat → Option String :=
  fun k => if k < 2 then some "IN_PROGRESS" else some "COMPLETED"

/-- C1 witness: with the 300-tick budget of `tix_domo` and a status oracle
answering `IN_PROGRESS`, `IN_PROGRESS`, `COMPLETED`, the loop issues
exactly 3 queries and exits with `COMPLETED`. -/
theorem pollLoop_budget_and_first_exit_witness :
    (pollLoop wRespC1 (some "IN_PROGRESS") 300 0).2 ≤ 300 ∧
    pollLoop wRespC1 (some "IN_PROGRESS") 300 0 = (some "COMPLETED", 3) := by
  refine ⟨(pollLoop_budget_and_first_exit wRespC1 (some "IN_PROGRESS") 300).1, ?_⟩
  have h := (pollLoop_budget_and_first_exit wRespC1 (some "IN_PROGRESS") 300).2 2
    (by omega) rfl
    (fun i hi => by interval_cases i <;> rfl)
    (by decide)
  simpa [wRespC1] using h

/-! ## Retry-loop lemmas -/

theorem wfLoop_count_le (trigId : String) (rounds : Nat → Round) :
    ∀ (b k : Nat) (st : Option String) (last : Option LastResp),
      (wfLoop trigId rounds st last b k).2 ≤ k + b := by
  intro b
  induction b with
  | zero => intro k st last; simp [wfLoop]
  | succ b ih =>
    intro k st last
    simp only [wfLoop]
    split
    · exact Nat.le_add_right k (b + 1)
    · split
      · show k + 1 ≤ k + (b + 1)
        omega
      · exact le_trans (ih (k + 1) _ _) (by omega)

theorem wfLoop_exit (trigId : String) (rounds : Nat → Round)
    (st : Option String) (last : Option LastResp) (b k : Nat)
    (h : st = some "COMPLETED") :
    wfLoop trigId rounds st last b k = (.ok (st, last), k) := by
  cases b with
  | zero => rfl
  | succ b => simp only [wfLoop, if_pos h]

theorem wfLoop_first_completed (trigId : String) (rounds : Nat → Round) :
    ∀ (j b k : Nat) (st : Option String) (last : Option LastResp),
      st ≠ some "COMPLETED" → j < b →
      (∀ i, i < j → ∃ s m, runTix trigId (rounds (k + i)) = .ok s m ∧
        s ≠ some "COMPLETED") →
      (∃ m, runTix trigId (rounds (k + j)) = .ok (some "COMPLETED") m) →
      (wfLoop trigId rounds st last b k).2 = k + j + 1 := by
  intro j
  induction j with
  | zero =>
    intro b k st last hst hb _hall hj
    obtain ⟨b', rfl⟩ : ∃ b', b = b' + 1 := ⟨b - 1, by omega⟩
    obtain ⟨m, hm⟩ := hj
    rw [Nat.add_zero] at hm
    simp only [wfLoop, if_neg hst]
    rw [hm]
    show (wfLoop trigId rounds (some "COMPLETED")
      (some (some "COMPLETED", m)) b' (k + 1)).2 = k + 0 + 1
    rw [wfLoop_exit trigId rounds _ _ b' (k + 1) rfl]
  | succ j ih =>
    intro b k st last hst hb hall hj
    obtain ⟨b', rfl⟩ : ∃ b', b = b' + 1 := ⟨b - 1, by omega⟩
    have h0 := hall 0 (by omega)
    rw [Nat.add_zero] at h0
    obtain ⟨s, m, hsm, hs⟩ := h0
    simp only [wfLoop, if_neg hst]
    rw [hsm]
    show (wfLoop trigId rounds s (some (s, m)) b' (k + 1)).2 = k + (j + 1) + 1
    have hrec := ih b' (k + 1) s (some (s, m)) hs (by omega)
      (fun i hi => by
        have h2 := hall (i + 1) (by omega)
        have e : k + (i + 1) = k + 1 + i := by omega
        rw [e] at h2
        exact h2)
      (by
        have e : k + 1 + j = k + (j + 1) := by omega
        rw [e]
        exact hj)
    rw [hrec]
    omega

/-- C3: for every attempt budget `N ≥ 0`, the retry-with-reactivation loop
of `tix_workflow` performs at most `N` workflow activations (one per
`tix_domo` call), and it performs no further activation after the first
activation round whose final status is `COMPLETED`: if rounds `0..j-1` end
with a non-`COMPLETED` status and round `j` ends `COMPLETED` (`j < N`),
exactly `j + 1` activations are performed. -/
theorem wfLoop_budget_and_first_completed (trigId : String)
    (rounds : Nat → Round) (N : Nat) :
    (wfLoop trigId rounds (some "uninitialized") none N 0).2 ≤ N ∧
    ∀ j, j < N →
      (∀ i, i < j → ∃ s m, runTix trigId (rounds i) = .ok s m ∧
        s ≠ some "COMPLETED") →
      (∃ m, runTix trigId (rounds j) = .ok (some "COMPLETED") m) →
      (wfLoop trigId rounds (some "uninitialized") none N 0).2 = j + 1 := by
  constructor
  · simpa using wfLoop_count_le trigId rounds N 0 (some "uninitialized") none
  · intro j hj hall hcomp
    have h := wfLoop_first_completed trigId rounds j N 0 (some "uninitialized")
      none (by decide) hj (by simpa using hall) (by simpa using hcomp)
    simpa using h

/-- Round fixture for the C3 witness: activation immediately reports
`COMPLETED`, so the first attempt already succeeds. -/
def wRoundC3 : Round := ⟨some ⟨some "i1", some "COMPLETED"⟩, fun _ => none, none⟩

/-- C3 witness: with budget 5 and every activation reporting `COMPLETED`,
the loop performs exactly one activation (and at most 5). -/
theorem wfLoop_budget_and_first_completed_witness :
    (wfLoop "t" (fun _ => wRoundC3) (some "uninitialized") none 5 0).2 ≤ 5 ∧
    (wfLoop "t" (fun _ => wRoundC3) (some "uninitialized") none 5 0).2 = 1 := by
  refine ⟨(wfLoop_budget_and_first_completed "t" (fun _ => wRoundC3) 5).1, ?_⟩
  exact (wfLoop_budget_and_first_completed "t" (fun _ => wRoundC3) 5).2 0
    (by omega) (fun i hi => absurd hi (by omega)) ⟨none, rfl⟩

/-! ## Facade result shape (C2) -/

/-- Status oracle of the specification scenario: `IN_PROGRESS` twice, then
`COMPLETED`. -/
def scResp : Nat → Option String :=
  fun k => if k < 2 then some "IN_PROGRESS" else some "COMPLETED"

/-- Transactions of the specification scenario. -/
def scMsgs : List Msg :=
  [⟨some "result__x", some (.num 1)⟩, ⟨some "other", some (.num 2)⟩]

/-- Remote behaviour of the specification scenario: activation yields id
`abc123` with status `IN_PROGRESS`. -/
def scRound : Round := ⟨some ⟨some "abc123", some "IN_PROGRESS"⟩, scResp, some scMsgs⟩

/-- A round whose activation immediately reports the terminal status
`FAILED`. -/
def scRoundFailed : Round := ⟨some ⟨some "abc123", some "FAILED"⟩, fun _ => none, some scMsgs⟩

/-- C2 counterexample: in the specification scenario the facade returns the
literal lowercase status `"completed"`, not the observed status string
`"COMPLETED"` the claim requires; and in a run ending in the terminal
status `FAILED`, the `data` field is the entire last response object
(status and messages), not the raw transaction list. -/
theorem tix_workflow_scenario_counterexample :
    tix_workflow "t1" (fun _ => scRound) 5 =
      .ok ⟨some "completed", .msgs [⟨some "result__x", some (.num 1)⟩]⟩ ∧
    (some "completed" : Option String) ≠ some "COMPLETED" ∧
    tix_workflow "t1" (fun _ => scRoundFailed) 5 =
      .ok ⟨some "FAILED", .resp (some "FAILED") (some scMsgs)⟩ :=
  ⟨rfl, by decide, rfl⟩

/-- The `status == 'COMPLETED'` branch of `tix_workflow`: the literal
lowercase `"completed"` with the prefix-filtered messages (iterating a
`None` message list raises `TypeError`). -/
def completedBranch (msgs : Option (List Msg)) : Except PyErr WfResp :=
  match msgs with
  | some l => .ok ⟨some "completed", .msgs (filterResult l)⟩
  | none => .error .typeError

/-- C2 amended: the facade's structured result carries the literal lowercase
status `"completed"` (not the observed status string) together with the
prefix-filtered messages when the final loop status is `COMPLETED`, and for
any other terminal or budget-exhausted state it carries the final observed
status with the entire last response object (status and messages) as
`data`. -/
theorem tix_workflow_shape (trigId : String) (rounds : Nat → Round)
    (attempts : Nat) (st s2 : Option String) (msgs : Option (List Msg)) (n : Nat)
    (h : wfLoop trigId rounds (some "uninitialized") none attempts 0 =
      (.ok (st, some (s2, msgs)), n)) :
    tix_workflow trigId rounds attempts =
      if st = some "COMPLETED" then completedBranch msgs
      else .ok ⟨s2, .resp s2 msgs⟩ := by
  unfold tix_workflow
  rw [h]
  cases msgs with
  | none => by_cases hst : st = some "COMPLETED" <;> simp [hst, completedBranch]
  | some l => by_cases hst : st = some "COMPLETED" <;> simp [hst, completedBranch]

/-- C2 amended witness: the specification scenario instantiates the amended
shape, producing status `"completed"` with the filtered messages. -/
theorem tix_workflow_shape_witness :
    tix_workflow "t1" (fun _ => scRound) 5 =
      .ok ⟨some "completed", .msgs (filterResult scMsgs)⟩ := by
  have h := tix_workflow_shape "t1" (fun _ => scRound) 5 (some "COMPLETED")
    (some "COMPLETED") (some scMsgs) 1 rfl
  simpa using h

/-! ## Result extraction and error handling (C4, C5, C6) -/

/-- C4: for every transaction list containing no message whose `id` equals
exactly `"result"`, the exact-match-one selector yields the not-found
default (`None`), and the invocation never lets the subsequent dereference
fault escape: `query_dataset`'s catch-all converts it to the usable error
string (tagged here with the `TypeError` it caught), so the caller receives
an error value, not an unhandled exception. -/
theorem query_no_result_not_found (loads : JVal → Except PyErr JVal)
    (resp : Nat → Option String) (msgs : List Msg) (i s : String)
    (h : ∀ m ∈ msgs, m.id ≠ some "result") :
    msgs.find? (fun m => m.id == some "result") = none ∧
    (query_dataset loads (some ⟨some i, some s⟩) resp (some msgs)).1 =
      .errorString .typeError := by
  have hfind : msgs.find? (fun m => m.id == some "result") = none := by
    apply List.find?_eq_none.mpr
    intro m hm
    simpa using h m hm
  refine ⟨hfind, ?_⟩
  simp [query_dataset, query_dataset_body, query_extract, hfind]

/-- Transaction list for the C4 witness: a single message whose id is not
`"result"`. -/
def wMsgsC4 : List Msg := [⟨some "other", some (.num 2)⟩]

/-- C4 witness: on `[{"id": "other", "value": 2}]` the selector finds
nothing and the caller receives the caught-`TypeError` error string. -/
theorem query_no_result_not_found_witness :
    wMsgsC4.find? (fun m => m.id == some "result") = none ∧
    (query_dataset (fun v => .ok v) (some ⟨some "i1", some "X"⟩) (fun _ => none)
      (some wMsgsC4)).1 = .errorString .typeError := by
  refine query_no_result_not_found (fun v => .ok v) (fun _ => none) wMsgsC4 "i1" "X" ?_
  intro m hm
  simp only [wMsgsC4, List.mem_singleton] at hm
  subst hm
  decide

/-- C5 counterexample: on an activation response missing the `id` key (and
likewise on an activation outcome of `None`), `tix_domo` returns the bare
Python boolean `True` — the identical outcome for both, so no
`ProtocolError` (nor any structured error) is surfaced to the caller. -/
theorem tix_domo_malformed_counterexample :
    tix_domo "t" (some ⟨none, some "IN_PROGRESS"⟩) (fun _ => none) none =
      (.pyTrue, [.activate "t"]) ∧
    tix_domo "t" none (fun _ => none) none = (.pyTrue, [.activate "t"]) :=
  ⟨rfl, rfl⟩

/-- C5 amended: for every activation response that is malformed (missing
the instance identifier field `id`) the invocation performs no subsequent
status or transaction calls, but the key-lookup failure is caught inside
`tix_domo`, which returns the boolean `True` rather than surfacing a
`ProtocolError`. -/
theorem tix_domo_malformed_no_calls (trigId : String) (t : ActResp)
    (resp : Nat → Option String) (txns : Option (List Msg)) (h : t.id = none) :
    tix_domo trigId (some t) resp txns = (.pyTrue, [.activate trigId]) ∧
    tix_domo trigId none resp txns = (.pyTrue, [.activate trigId]) := by
  obtain ⟨tid, ts⟩ := t
  cases h
  exact ⟨rfl, rfl⟩

/-- C5 amended witness: a concrete malformed activation response yields the
boolean `True` and a trace containing only the activation call. -/
theorem tix_domo_malformed_no_calls_witness :
    tix_domo "t0" (some ⟨none, some "X"⟩) (fun _ => none) none =
      (.pyTrue, [.activate "t0"]) ∧
    tix_domo "t0" none (fun _ => none) none = (.pyTrue, [.activate "t0"]) :=
  tix_domo_malformed_no_calls "t0" ⟨none, some "X"⟩ (fun _ => none) none rfl

/-- C6: evaluation of the executors at the transport failures.  In
src/domo_mcp/server.py, a connection error (no response bound) makes the
`except` handler's log line `f"...{response.text}"` raise
`UnboundLocalError`, which escapes to the caller — contradicting the claim
that every transport failure is converted to a `None` outcome; a non-2xx
response (response bound) is converted to `None` as claimed, and the
src/domo_mcp/domo.py executor converts even connection errors to `None`. -/
theorem make_request_transport_failure_eval :
    make_request .connError false = .error .unboundLocalError ∧
    make_request .connError true = .error .unboundLocalError ∧
    (∀ txt j nojson, make_request (.resp false txt j) nojson = .ok none) ∧
    make_request_domo .connError = none :=
  ⟨rfl, rfl, fun _ _ _ => rfl, rfl⟩

/-! ## Instance-identifier threading (C7) -/

/-- A call addresses only `iid`: any status query or transaction fetch it
represents carries exactly that instance identifier. -/
def usesOnly (iid : String) (c : Call) : Prop :=
  ∀ j, (c = .statusQ j ∨ c = .txns j) → j = iid

/-- C7 counterexample: an activation response with the empty string as
`id` and a terminal status succeeds (`tix_domo`'s body returns the normal
result), yet the identifier is empty and is the one used in the
transaction fetch — refuting the claim that a successful activation's
instance identifier is non-empty. -/
theorem tix_domo_empty_instance_id :
    tix_domo_body "t" (some ⟨some "", some "COMPLETED"⟩) (fun _ => none) none =
      (.ok (some "COMPLETED", none), [.activate "t", .txns ""]) ∧
    ("" : String).length = 0 :=
  ⟨rfl, rfl⟩

/-- C7 amended: for every invocation whose activation response carries an
`id` and a `status`, the instance identifier of that response — whatever
string it is, possibly empty — is exactly the identifier used in every
status query and in the transaction fetch of that invocation, in both the
`tix_domo` path and the `query_dataset` path. -/
theorem instance_id_threading (trigId : String)
    (loads : JVal → Except PyErr JVal) (resp : Nat → Option String)
    (txns : Option (List Msg)) (iid st0 : String) :
    (∀ c ∈ (tix_domo_body trigId (some ⟨some iid, some st0⟩) resp txns).2,
      usesOnly iid c) ∧
    (∀ c ∈ (query_dataset_body loads (some ⟨some iid, some st0⟩) resp txns).2,
      usesOnly iid c) := by
  constructor
  · intro c hc
    simp only [tix_domo_body, List.mem_cons, List.mem_append,
      List.mem_replicate, List.mem_singleton] at hc
    rcases hc with h | ⟨-, h⟩ | h | h
    · subst h; rintro j (hj | hj) <;> exact Call.noConfusion hj
    · subst h; rintro j (hj | hj)
      · injection hj with h2; exact h2.symm
      · exact Call.noConfusion hj
    · subst h; rintro j (hj | hj)
      · exact Call.noConfusion hj
      · injection hj with h2; exact h2.symm
    · exact absurd h (by simp)
  · intro c hc
    simp only [query_dataset_body, List.mem_cons, List.mem_append,
      List.mem_replicate, List.mem_singleton] at hc
    rcases hc with h | ⟨-, h⟩ | h | h
    · subst h; rintro j (hj | hj) <;> exact Call.noConfusion hj
    · subst h; rintro j (hj | hj)
      · injection hj with h2; exact h2.symm
      · exact Call.noConfusion hj
    · subst h; rintro j (hj | hj)
      · exact Call.noConfusion hj
      · injection hj with h2; exact h2.symm
    · exact absurd h (by simp)

/-- C7 amended witness: in a concrete invocation whose activation returned
instance id `"abc"`, the transaction fetch in the trace addresses exactly
`"abc"`. -/
theorem instance_id_threading_witness :
    Call.txns "abc" ∈ (tix_domo_body "t" (some ⟨some "abc", some "COMPLETED"⟩)
      (fun _ => none) none).2 ∧ ("abc" : String) = "abc" := by
  refine ⟨by simp [tix_domo_body], ?_⟩
  exact (instance_id_threading "t" (fun v => .ok v) (fun _ => none) none
    "abc" "COMPLETED").1 (Call.txns "abc") (by simp [tix_domo_body])
    "abc" (Or.inr rfl)

/-! ## Prefix-match-all idempotence (C8) -/

/-- C8: the `result__`-prefix filter is idempotent — applying it twice to
any transaction list yields the same result as applying it once — and
re-running it on the same unchanged list yields the same set of messages. -/
theorem filterResult_idempotent (l : List Msg) :
    filterResult (filterResult l) = filterResult l ∧
    ∀ m, m ∈ filterResult (filterResult l) ↔ m ∈ filterResult l := by
  have h : filterResult (filterResult l) = filterResult l := by
    simp [filterResult, List.filter_filter]
  exact ⟨h, fun m => by rw [h]⟩

/-! ## Exception swallowing and the facade crash (C9) -/

/-- C9: when the activation step inside `tix_domo` raises (activation
outcome `None`, or activation response missing the `id` key), `tix_domo`
returns the boolean `True` instead of a status/messages dict; the retry
loop of `tix_workflow` then calls `.get` on that boolean, so such a failure
in the first attempt surfaces as an unhandled `AttributeError` at the route
handler rather than a structured response. -/
theorem tix_domo_true_facade_attrError (trigId : String) (rounds : Nat → Round)
    (attempts : Nat) (resp : Nat → Option String) (txns : Option (List Msg)) :
    (tix_domo trigId none resp txns).1 = .pyTrue ∧
    (∀ t : ActResp, t.id = none → (tix_domo trigId (some t) resp txns).1 = .pyTrue) ∧
    (0 < attempts → runTix trigId (rounds 0) = .pyTrue →
      tix_workflow trigId rounds attempts = .error .attrError) := by
  refine ⟨rfl, ?_, ?_⟩
  · intro t ht
    obtain ⟨tid, ts⟩ := t
    cases ht
    rfl
  · intro hpos hfail
    obtain ⟨a, rfl⟩ : ∃ a, attempts = a + 1 := ⟨attempts - 1, by omega⟩
    unfold tix_workflow wfLoop
    rw [if_neg (by decide), hfail]

/-- Round fixture for the C9 witness: the activation outcome is `None`. -/
def wRoundC9 : Round := ⟨none, fun _ => none, none⟩

/-- C9 witness: with a `None` activation outcome on the first attempt, the
facade raises `AttributeError`. -/
theorem tix_domo_true_facade_attrError_witness :
    tix_workflow "t" (fun _ => wRoundC9) 1 = .error .attrError :=
  (tix_domo_true_facade_attrError "t" (fun _ => wRoundC9) 1
    (fun _ => none) none).2.2 (by omega) rfl

/-! ## Transport failure inside the poll loop (C10) -/

/-- C10: if status query `j` inside the poll loop fails at the transport
level with the executor converting it to a `None` outcome (`resp j = none`,
all earlier queries still `IN_PROGRESS`, `j` within the 300-tick budget),
that `None` is assigned as the current status, the loop condition
`status == 'IN_PROGRESS'` becomes false and polling stops right after query
`j`, and `tix_domo` returns through its normal (non-error) path with `None`
as the final status — the same result shape as any remote terminal
status. -/
theorem poll_transport_none_terminal (trigId : String)
    (resp : Nat → Option String) (txns : Option (List Msg)) (iid : String)
    (j : Nat) (hall : ∀ i, i < j → resp i = some "IN_PROGRESS")
    (hj : resp j = none) (hjT : j < 300) :
    tix_domo trigId (some ⟨some iid, some "IN_PROGRESS"⟩) resp txns =
      (.ok none txns,
       .activate trigId :: (List.replicate (j + 1) (.statusQ iid) ++ [.txns iid])) := by
  have hp : pollLoop resp (some "IN_PROGRESS") 300 0 = (none, j + 1) := by
    have h := pollLoop_first_exit resp j 300 0 hjT (by simpa using hall)
      (by simp [hj])
    simp only [Nat.zero_add] at h
    rw [hj] at h
    exact h
  simp [tix_domo, tix_domo_body, hp]

/-- C10 witness: with the very first status query transport-failing to a
`None` outcome, `tix_domo` stops polling after that single query and
returns `None` as the final status through its normal result path. -/
theorem poll_transport_none_terminal_witness :
    tix_domo "t" (some ⟨some "i9", some "IN_PROGRESS"⟩) (fun _ => none) none =
      (.ok none none, [.activate "t", .statusQ "i9", .txns "i9"]) := by
  have h := poll_transport_none_terminal "t" (fun _ => none) none "i9" 0
    (fun i hi => absurd hi (by omega)) rfl (by omega)
  simpa using h

end DomoMcp
